import Mathlib

/-!
Shallow embedding of the project-manager-mcp request/response bridge.

Sources embedded:
  * src/mcp-server/index.js  — request dispatcher (`getClient`, `mcp.sendResponse`,
    `mcp.handleRequest`) and the line-protocol transport handler.
  * src/lib/jira-client.js   — JIRA adapter (`hasRequiredEnv`, `createIssue`,
    `updateIssue`, `searchIssues`).
  * src/lib/gitlab-client.js — GitLab adapter (same four operations).

Modelling conventions:
  * JavaScript values are the inductive `Value` (undefined, null, booleans,
    numbers as `Int` — the code never manipulates fractional numbers or NaN —
    strings, arrays, objects as ordered association lists; the objects the
    program builds and the claims touch are duplicate-key free, and `lookupField`
    takes the first binding).
  * Property access on null/undefined throws (`getProp`); on any other
    non-object value it yields undefined (`propOf`).  Assignment to a property of
    a primitive is a silent no-op, as in sloppy-mode CommonJS (`setProp`).
  * The external platform SDK calls (`jira.addNewIssue`, `jira.updateIssue`,
    `jira.searchJira`, `gitlab.Issues.create/edit/all`) are the only effects;
    each adapter run returns the thrown-or-returned outcome together with the
    list of SDK calls it made, and an `Oracle` decides what each SDK call
    returns.  `JSON.parse` of an input line is likewise external: the transport
    handler is modelled on the parse outcome.
  * Environment configuration is the record `Env`; a variable is either absent
    (`none`) or a string, exactly the shape of `process.env`.
  * `console.log` of a response envelope is modelled by returning the envelope;
    `console.error` diagnostics of the transport and of the dispatcher catch
    block are collected as strings.  The debug trace emitted only when
    `NODE_ENV` being `dev` with `LOG_LEVEL` at `debug`, and each adapter with its own
    catch-log-rethrow `console.error` lines are diagnostics with no effect on
    any claim and are not tracked.
-/

/-- JavaScript runtime values as far as this program manipulates them. -/
inductive Value where
  | undefined
  | vnull
  | vbool (b : Bool)
  | vnum (n : Int)
  | vstr (s : String)
  | vlist (xs : List Value)
  | vobj (fields : List (String × Value))

/-- A thrown JavaScript error, reduced to the only part the program reads:
its `message` string. -/
structure JsError where
  message : String

/-- JavaScript truthiness: undefined, null, false, 0 and the empty string are
falsy; every object and array is truthy.  (NaN is not representable here; the
program never produces one.) -/
def truthy : Value → Bool
  | .undefined => false
  | .vnull => false
  | .vbool b => b
  | .vnum n => n != 0
  | .vstr s => s ≠ ""
  | .vlist _ => true
  | .vobj _ => true

/-- First binding of a key in an object field list. -/
def lookupField : List (String × Value) → String → Option Value
  | [], _ => none
  | (k, v) :: rest, key => if k = key then some v else lookupField rest key

/-- Property read on a value that is known not to be null/undefined: objects
give the stored field or undefined, all other values give undefined. -/
def propOf (v : Value) (k : String) : Value :=
  match v with
  | .vobj fields => (lookupField fields k).getD .undefined
  | _ => .undefined

/-- Whether an object value carries the key at all (presence, not truthiness). -/
def hasKey (v : Value) (k : String) : Bool :=
  match v with
  | .vobj fields => (lookupField fields k).isSome
  | _ => false

/-- Test for null or undefined, the two values whose property access throws. -/
def isNullish : Value → Bool
  | .undefined => true
  | .vnull => true
  | _ => false

/-- Test for undefined alone (JS default parameters trigger on it, not on null). -/
def isUndefined : Value → Bool
  | .undefined => true
  | _ => false

/-- Property read mirroring the JS semantics of a possibly-throwing access:
`v.k` throws a TypeError when `v` is null or undefined. -/
def getProp (v : Value) (k : String) : Except JsError Value :=
  if isNullish v then .error ⟨"Cannot read properties of null or undefined (reading " ++ k ++ ")"⟩
  else .ok (propOf v k)

/-- Replace the first binding of a key, or append a new one — JS property
assignment on an object preserves insertion order. -/
def setField : List (String × Value) → String → Value → List (String × Value)
  | [], k, x => [(k, x)]
  | (k0, v0) :: rest, k, x =>
    if k0 = k then (k, x) :: rest else (k0, v0) :: setField rest k x

/-- Property assignment: mutates objects, silently does nothing on other
values (sloppy mode); callers have already ruled out null/undefined. -/
def setProp (v : Value) (k : String) (x : Value) : Value :=
  match v with
  | .vobj fields => .vobj (setField fields k x)
  | _ => v

/-- Short-circuiting JS `&&` on values. -/
def jsAnd (a b : Value) : Value :=
  if truthy a then b else a

/-- Short-circuiting JS `||` on values. -/
def jsOr (a b : Value) : Value :=
  if truthy a then a else b

mutual

/-- Template-literal conversion of an array: elements joined by commas, with
null and undefined elements rendering as the empty string (JS `Array` join). -/
def jsTemplateList : List Value → String
  | [] => ""
  | [x] => jsTemplateElem x
  | x :: xs => jsTemplateElem x ++ "," ++ jsTemplateList xs

/-- Conversion of one array element inside a join. -/
def jsTemplateElem : Value → String
  | .undefined => ""
  | .vnull => ""
  | .vbool b => if b then "true" else "false"
  | .vnum n => toString n
  | .vstr s => s
  | .vobj _ => "[object Object]"
  | .vlist xs => jsTemplateList xs

end

/-- JS template-literal stringification, as used by the thrown error messages
of the dispatcher. -/
def jsTemplate : Value → String
  | .undefined => "undefined"
  | .vnull => "null"
  | .vbool b => if b then "true" else "false"
  | .vnum n => toString n
  | .vstr s => s
  | .vobj _ => "[object Object]"
  | .vlist xs => jsTemplateList xs

/-- Process environment at startup: each variable is absent or a string,
mirroring `process.env` for the variables the three modules read. -/
structure Env where
  JIRA_URL : Option String
  JIRA_TOKEN : Option String
  JIRA_EMAIL : Option String
  JIRA_PROJECT : Option String
  GITLAB_URL : Option String
  GITLAB_TOKEN : Option String
  GITLAB_PROJECT_ID : Option String

/-- An environment variable as the JS expression `process.env.X` sees it. -/
def envValue : Option String → Value
  | none => .undefined
  | some s => .vstr s

/-- One call into a platform SDK, recording the function used and the payload
the adapter constructed for it. -/
inductive NetCall where
  | jiraAddNewIssue (payload : Value)
  | jiraUpdateIssue (issueKey : Value) (payload : Value)
  | jiraSearchJira (jql : Value) (searchOptions : Value)
  | glCreate (projectId : Value) (payload : Value)
  | glEdit (projectId : Value) (issueId : Value) (payload : Value)
  | glIssuesAll (options : Value)

/-- What the external platform answers to each SDK call: the returned value or
a thrown error (auth failure, network failure, 4xx/5xx...). -/
def Oracle := NetCall → Except JsError Value

namespace Jira

/-- src/lib/jira-client.js hasRequiredEnv (lines 14-16):
`!!(process.env.JIRA_URL && process.env.JIRA_TOKEN && process.env.JIRA_EMAIL)`. -/
def hasRequiredEnv (env : Env) : Bool :=
  truthy (envValue env.JIRA_URL) && truthy (envValue env.JIRA_TOKEN)
    && truthy (envValue env.JIRA_EMAIL)

/-- Error thrown by `initializeClient` (and by the explicit check in
`createIssue`) when the JIRA configuration is incomplete. -/
def configError : JsError :=
  ⟨"Missing required JIRA configuration. Please check .env file."⟩

/-- src/lib/jira-client.js createIssue (lines 46-91).  Checks the environment,
defaults `projectKey` from `JIRA_PROJECT` (mutating `issueData`), rejects a
falsy `summary`, builds the `fields` payload and calls `jira.addNewIssue`.
The catch block only logs and rethrows, so it is observationally the thrown
error itself. -/
def createIssue (env : Env) (oracle : Oracle) (issueData : Value) :
    Except JsError Value × List NetCall :=
  if ¬ hasRequiredEnv env then (.error configError, [])
  else
    match getProp issueData "projectKey" with
    | .error e => (.error e, [])
    | .ok pk =>
      let d := if truthy pk then issueData
               else setProp issueData "projectKey" (envValue env.JIRA_PROJECT)
      if ¬ truthy (propOf d "summary") then (.error ⟨"Issue summary is required"⟩, [])
      else
        let fields : List (String × Value) :=
          [("project", .vobj [("key", propOf d "projectKey")]),
           ("summary", propOf d "summary"),
           ("description", jsOr (propOf d "description") (.vstr "")),
           ("issuetype", .vobj [("name", jsOr (propOf d "issueType") (.vstr "Task"))])]
        let fields := if truthy (propOf d "assignee")
          then fields ++ [("assignee", .vobj [("name", propOf d "assignee")])] else fields
        let fields := if truthy (propOf d "labels") &&
            (match propOf d "labels" with | .vlist _ => true | _ => false)
          then fields ++ [("labels", propOf d "labels")] else fields
        let call := NetCall.jiraAddNewIssue (.vobj [("fields", .vobj fields)])
        (oracle call, [call])

/-- Fields of the JIRA update payload, src/lib/jira-client.js lines 108-129:
each of summary/description/assignee is copied only when truthy in
`updateData`; a `status` value only triggers a console warning and never
reaches the payload. -/
def updateFields (updateData : Value) : List (String × Value) :=
  (if truthy (propOf updateData "summary")
     then [("summary", propOf updateData "summary")] else [])
  ++ (if truthy (propOf updateData "description")
     then [("description", propOf updateData "description")] else [])
  ++ (if truthy (propOf updateData "assignee")
     then [("assignee", .vobj [("name", propOf updateData "assignee")])] else [])

/-- src/lib/jira-client.js updateIssue (lines 100-136): initialize the client
(configuration check), reject a falsy `issueKey`, then build the sparse
`fields` payload from `updateData` (whose first property read throws if
`updateData` is null/undefined) and call `jira.updateIssue`. -/
def updateIssue (env : Env) (oracle : Oracle) (issueKey updateData : Value) :
    Except JsError Value × List NetCall :=
  if ¬ hasRequiredEnv env then (.error configError, [])
  else if ¬ truthy issueKey then (.error ⟨"Issue key is required"⟩, [])
  else
    match getProp updateData "summary" with
    | .error e => (.error e, [])
    | .ok _ =>
      let call := NetCall.jiraUpdateIssue issueKey
        (.vobj [("fields", .vobj (updateFields updateData))])
      (oracle call, [call])

/-- The `searchOptions` object of src/lib/jira-client.js lines 149-154:
defaults maxResults 50, startAt 0 and a fixed field list, each overridden by a
truthy option. -/
def searchOptions (jql options : Value) : Value :=
  .vobj [("jql", jql),
         ("maxResults", jsOr (propOf options "maxResults") (.vnum 50)),
         ("startAt", jsOr (propOf options "startAt") (.vnum 0)),
         ("fields", jsOr (propOf options "fields")
            (.vlist [.vstr "summary", .vstr "status", .vstr "assignee",
                     .vstr "description", .vstr "created", .vstr "updated"]))]

/-- src/lib/jira-client.js searchIssues (lines 145-161): `options` defaults to
the empty object when undefined, the client is initialized (configuration
check), the options object is read (throwing on a null `options`) and
`jira.searchJira(searchOptions.jql, searchOptions)` is called. -/
def searchIssues (env : Env) (oracle : Oracle) (jql options : Value) :
    Except JsError Value × List NetCall :=
  let opts := if isUndefined options then Value.vobj [] else options
  if ¬ hasRequiredEnv env then (.error configError, [])
  else
    match getProp opts "maxResults" with
    | .error e => (.error e, [])
    | .ok _ =>
      let call := NetCall.jiraSearchJira jql (searchOptions jql opts)
      (oracle call, [call])

end Jira

namespace Gitlab

/-- src/lib/gitlab-client.js hasRequiredEnv (lines 14-16):
`!!(process.env.GITLAB_URL && process.env.GITLAB_TOKEN && process.env.GITLAB_PROJECT_ID)`. -/
def hasRequiredEnv (env : Env) : Bool :=
  truthy (envValue env.GITLAB_URL) && truthy (envValue env.GITLAB_TOKEN)
    && truthy (envValue env.GITLAB_PROJECT_ID)

/-- Error thrown when the GitLab configuration is incomplete. -/
def configError : JsError :=
  ⟨"Missing required GitLab configuration. Please check .env file."⟩

/-- src/lib/gitlab-client.js createIssue (lines 39-78): environment check,
falsy `title` rejected, payload of title/description/labels plus optional
assignee_id/due_date/weight, then `gitlab.Issues.create(projectId, issue)`. -/
def createIssue (env : Env) (oracle : Oracle) (issueData : Value) :
    Except JsError Value × List NetCall :=
  if ¬ hasRequiredEnv env then (.error configError, [])
  else
    match getProp issueData "title" with
    | .error e => (.error e, [])
    | .ok t =>
      if ¬ truthy t then (.error ⟨"Issue title is required"⟩, [])
      else
        let fields : List (String × Value) :=
          [("title", t),
           ("description", jsOr (propOf issueData "description") (.vstr "")),
           ("labels", jsOr (propOf issueData "labels") (.vlist []))]
        let fields := if truthy (propOf issueData "assigneeId")
          then fields ++ [("assignee_id", propOf issueData "assigneeId")] else fields
        let fields := if truthy (propOf issueData "dueDate")
          then fields ++ [("due_date", propOf issueData "dueDate")] else fields
        let fields := if truthy (propOf issueData "weight")
          then fields ++ [("weight", propOf issueData "weight")] else fields
        let call := NetCall.glCreate (envValue env.GITLAB_PROJECT_ID) (.vobj fields)
        (oracle call, [call])

/-- Fields of the GitLab update payload, src/lib/gitlab-client.js lines
96-117: title/description/labels copied under their own names, `assigneeId`
as `assignee_id`, and a truthy `state` as `state_event` (the literal value
`close` maps to `close`, anything else truthy to `reopen`), each only when
truthy in `updateData`. -/
def updateFields (updateData : Value) : List (String × Value) :=
  (if truthy (propOf updateData "title")
     then [("title", propOf updateData "title")] else [])
  ++ (if truthy (propOf updateData "description")
     then [("description", propOf updateData "description")] else [])
  ++ (if truthy (propOf updateData "assigneeId")
     then [("assignee_id", propOf updateData "assigneeId")] else [])
  ++ (if truthy (propOf updateData "labels")
     then [("labels", propOf updateData "labels")] else [])
  ++ (if truthy (propOf updateData "state")
     then [("state_event",
            match propOf updateData "state" with
            | .vstr "close" => Value.vstr "close"
            | _ => Value.vstr "reopen")] else [])

/-- src/lib/gitlab-client.js updateIssue (lines 87-124): initialize the client
(configuration check), reject a falsy `issueId`, build the sparse payload
(first property read throws on a null/undefined `updateData`) and call
`gitlab.Issues.edit(projectId, issueId, issue)`. -/
def updateIssue (env : Env) (oracle : Oracle) (issueId updateData : Value) :
    Except JsError Value × List NetCall :=
  if ¬ hasRequiredEnv env then (.error configError, [])
  else if ¬ truthy issueId then (.error ⟨"Issue ID is required"⟩, [])
  else
    match getProp updateData "title" with
    | .error e => (.error e, [])
    | .ok _ =>
      let call := NetCall.glEdit (envValue env.GITLAB_PROJECT_ID) issueId
        (.vobj (updateFields updateData))
      (oracle call, [call])

/-- The `searchOptions` object of src/lib/gitlab-client.js lines 137-160:
fixed scope `all`, defaults state `opened`, per_page 20 (from `maxResults`)
and page 1, plus optional labels/author/assignee/search filters. -/
def searchOptions (params : Value) : List (String × Value) :=
  [("scope", .vstr "all"),
   ("state", jsOr (propOf params "state") (.vstr "opened")),
   ("per_page", jsOr (propOf params "maxResults") (.vnum 20)),
   ("page", jsOr (propOf params "page") (.vnum 1))]
  ++ (if truthy (propOf params "labels")
     then [("labels", propOf params "labels")] else [])
  ++ (if truthy (propOf params "author")
     then [("author_username", propOf params "author")] else [])
  ++ (if truthy (propOf params "assignee")
     then [("assignee_username", propOf params "assignee")] else [])
  ++ (if truthy (propOf params "search")
     then [("search", propOf params "search")] else [])

/-- src/lib/gitlab-client.js searchIssues (lines 132-168): `params` defaults
to the empty object when undefined, the client is initialized (configuration
check), the params object is read (throwing on a null `params`) and
`gitlab.Issues.all` is called with projectId spread together with the
constructed search options. -/
def searchIssues (env : Env) (oracle : Oracle) (params : Value) :
    Except JsError Value × List NetCall :=
  let ps := if isUndefined params then Value.vobj [] else params
  if ¬ hasRequiredEnv env then (.error configError, [])
  else
    match getProp ps "state" with
    | .error e => (.error e, [])
    | .ok _ =>
      let call := NetCall.glIssuesAll
        (.vobj (("projectId", envValue env.GITLAB_PROJECT_ID) :: searchOptions ps))
      (oracle call, [call])

end Gitlab

/-- ASCII lowercasing of one character, as `toLowerCase` acts on the
platform names this program compares (all ASCII). -/
def lowerChar (c : Char) : Char :=
  if c.isUpper then Char.ofNat (c.toNat + 32) else c

/-- ASCII lowercasing of a string (`platform.toLowerCase()`). -/
def lowerString (s : String) : String :=
  ⟨s.data.map lowerChar⟩

/-- The two registered platform clients of src/mcp-server/index.js. -/
inductive Client where
  | jira
  | gitlab

/-- src/mcp-server/index.js getClient (lines 24-35): the JS default parameter
(platform defaulting to jira) applies when the argument is undefined; the argument is
lowercased (throwing a TypeError when it is not a string) and switched over
the two supported names, anything else throwing
`Unsupported platform: ` followed by the lowercased name. -/
def getClient (platform : Value) : Except JsError Client :=
  let p := if isUndefined platform then Value.vstr "jira" else platform
  match p with
  | .vstr s =>
    match lowerString s with
    | "jira" => .ok .jira
    | "gitlab" => .ok .gitlab
    | l => .error ⟨"Unsupported platform: " ++ l⟩
  | _ => .error ⟨"platform.toLowerCase is not a function"⟩

/-- The platform expression of src/mcp-server/index.js line 61:
`(params && params.platform) || jira-default`. -/
def resolvePlatform (params : Value) : Value :=
  jsOr (jsAnd params (propOf params "platform")) (.vstr "jira")

/-- One response envelope as `mcp.sendResponse` serializes it to stdout:
`error = none` renders as JSON `null`, `error = some m` as the object with the
single `message` field.  A `result` of `Value.undefined` is a field JSON.stringify
drops from the emitted line. -/
structure Response where
  id : Value
  result : Value
  error : Option String

/-- src/mcp-server/index.js mcp.sendResponse (lines 40-48):
`result: error ? null : result, error: error ? (message: error.message) : null`. -/
def sendResponse (id result : Value) (error : Option JsError) : Response :=
  ⟨id, if error.isSome then .vnull else result, error.map (fun e => e.message)⟩

/-- The `client.createIssue` virtual call of the dispatcher. -/
def clientCreateIssue : Client → Env → Oracle → Value → Except JsError Value × List NetCall
  | .jira => Jira.createIssue
  | .gitlab => Gitlab.createIssue

/-- The `client.updateIssue` virtual call of the dispatcher. -/
def clientUpdateIssue : Client → Env → Oracle → Value → Value → Except JsError Value × List NetCall
  | .jira => Jira.updateIssue
  | .gitlab => Gitlab.updateIssue

/-- The `client.hasRequiredEnv` virtual call of the dispatcher. -/
def clientHasRequiredEnv : Client → Env → Bool
  | .jira => Jira.hasRequiredEnv
  | .gitlab => Gitlab.hasRequiredEnv

/-- The `update_issue` key/payload extraction of src/mcp-server/index.js lines
71-81: `issueKey`/`updateData` under the platform-specific parameter names,
compared case-sensitively, both staying undefined when neither branch
matches; the reads throw on null/undefined `params`. -/
def updateKv (platform params : Value) : Except JsError (Value × Value) :=
  match platform with
  | .vstr "jira" =>
    match getProp params "issueKey" with
    | .error e => .error e
    | .ok k =>
      match getProp params "updateData" with
      | .error e => .error e
      | .ok u => .ok (k, u)
  | .vstr "gitlab" =>
    match getProp params "issueId" with
    | .error e => .error e
    | .ok k =>
      match getProp params "updateData" with
      | .error e => .error e
      | .ok u => .ok (k, u)
  | _ => .ok (.undefined, .undefined)

/-- The try-block of `mcp.handleRequest` (src/mcp-server/index.js lines
52-110): destructure the request (throwing on null/undefined), resolve the
platform and client, switch on the method, and either produce the success
envelope via `mcp.sendResponse(id, value)` or propagate the thrown error to
the catch block.  The second component lists the platform SDK calls made. -/
def dispatch (env : Env) (oracle : Oracle) (request : Value) :
    Except JsError Response × List NetCall :=
  if isNullish request then
    (.error ⟨"Cannot destructure null or undefined request"⟩, [])
  else
    let id := propOf request "id"
    let method := propOf request "method"
    let params := propOf request "params"
    let platform := resolvePlatform params
    match getClient platform with
    | .error e => (.error e, [])
    | .ok client =>
      match method with
      | .vstr "create_issue" =>
        match clientCreateIssue client env oracle params with
        | (.ok v, cs) => (.ok (sendResponse id v none), cs)
        | (.error e, cs) => (.error e, cs)
      | .vstr "update_issue" =>
        match updateKv platform params with
        | .error e => (.error e, [])
        | .ok (k, u) =>
          match clientUpdateIssue client env oracle k u with
          | (.ok v, cs) => (.ok (sendResponse id v none), cs)
          | (.error e, cs) => (.error e, cs)
      | .vstr "search_issues" =>
        match platform with
        | .vstr "jira" =>
          match getProp params "jql" with
          | .error e => (.error e, [])
          | .ok jql =>
            match getProp params "options" with
            | .error e => (.error e, [])
            | .ok options =>
              match Jira.searchIssues env oracle jql options with
              | (.ok v, cs) => (.ok (sendResponse id v none), cs)
              | (.error e, cs) => (.error e, cs)
        | .vstr "gitlab" =>
          match Gitlab.searchIssues env oracle params with
          | (.ok v, cs) => (.ok (sendResponse id v none), cs)
          | (.error e, cs) => (.error e, cs)
        | _ => (.ok (sendResponse id .undefined none), [])
      | .vstr "has_required_config" =>
        (.ok (sendResponse id
          (.vobj [("hasRequiredConfig", .vbool (clientHasRequiredEnv client env))]) none), [])
      | m => (.error ⟨"Unknown method: " ++ jsTemplate m⟩, [])

/-- Observable outcome of one `mcp.handleRequest` run: the response envelopes
written to stdout, the platform SDK calls made, the catch-block stderr lines,
and whether the async handler itself ended in an uncaught rejection. -/
structure DispatchOut where
  responses : List Response
  calls : List NetCall
  logs : List String
  crashed : Bool

/-- src/mcp-server/index.js mcp.handleRequest (lines 51-115): run the
try-block; on a thrown error, log it and send
`mcp.sendResponse(request.id, null, error)` — where reading `request.id`
itself throws when the request is null/undefined, leaving the rejection
uncaught and no envelope emitted. -/
def handleRequest (env : Env) (oracle : Oracle) (request : Value) : DispatchOut :=
  match dispatch env oracle request with
  | (.ok r, cs) => ⟨[r], cs, [], false⟩
  | (.error e, cs) =>
    match getProp request "id" with
    | .ok idv => ⟨[sendResponse idv .vnull (some e)], cs, ["[ERROR] " ++ e.message], false⟩
    | .error _ => ⟨[], cs, ["[ERROR] " ++ e.message], true⟩

/-- Observable outcome of one input line at the transport: requests handed to
the dispatcher, response lines written to stdout, SDK calls, stderr lines. -/
structure LineOut where
  handed : List Value
  responses : List Response
  calls : List NetCall
  stderrLines : List String

/-- The per-line transport handler of src/mcp-server/index.js (lines 119-127),
parameterized by the outcome of the external `JSON.parse(line)`: a decode
failure is only logged (`[ERROR] Failed to parse request: ...`), a decoded
value becomes one request handed to `mcp.handleRequest`. -/
def onLine (env : Env) (oracle : Oracle) (parsed : Except JsError Value) : LineOut :=
  match parsed with
  | .error e => ⟨[], [], [], ["[ERROR] Failed to parse request: " ++ e.message]⟩
  | .ok request =>
    let out := handleRequest env oracle request
    ⟨[request], out.responses, out.calls, out.logs⟩

/-- Empty environment: no configuration variable set. -/
def env0 : Env := ⟨none, none, none, none, none, none, none⟩

/-- Fully populated environment: every configuration variable set non-empty. -/
def envFull : Env :=
  ⟨some "https://jira.example.com", some "jtoken", some "me@example.com",
   some "PROJ", some "https://gitlab.example.com", some "gtoken", some "42"⟩

/-- Oracle for concrete runs: every SDK call succeeds returning undefined. -/
def oracle0 : Oracle := fun _ => .ok .undefined


/-- Whether a response envelope carries a non-null error object. -/
def responseHasError (r : Response) : Bool := r.error.isSome

/-- The mutual-exclusion shape the specification asserts of every emitted
envelope: either a failure (error object present, result null) or a success
whose result is an actual value (neither null nor the dropped undefined). -/
def exactlyOneNonNull (r : Response) : Prop :=
  (r.error.isSome = true ∧ r.result = Value.vnull) ∨
  (r.error = none ∧ r.result ≠ Value.vnull ∧ r.result ≠ Value.undefined)

/-- A configuration variable that is present and non-empty. -/
def envSet (o : Option String) : Prop := ∃ s, o = some s ∧ s ≠ ""

/-- Request used to exhibit the undefined-result envelope: a `search_issues`
request whose platform is spelled in upper case. -/
def reqMixedCaseSearch : Value :=
  .vobj [("id", .vstr "1"), ("method", .vstr "search_issues"),
         ("params", .vobj [("platform", .vstr "GITLAB")])]

/-- Request whose method is unknown and whose platform is unsupported. -/
def reqUnknownBadPlatform : Value :=
  .vobj [("id", .vnum 1), ("method", .vstr "nope"),
         ("params", .vobj [("platform", .vstr "foo")])]

/-- Request whose platform identifier is the empty string and whose method is
unknown. -/
def reqEmptyPlatform : Value :=
  .vobj [("id", .vnum 1), ("method", .vstr "x"),
         ("params", .vobj [("platform", .vstr "")])]

/-- Request with an unknown method and no params at all. -/
def reqUnknownMethod : Value :=
  .vobj [("id", .vnum 7), ("method", .vstr "nope")]

/-- Well-formed `has_required_config` request against the default platform. -/
def reqHasConfig : Value :=
  .vobj [("id", .vstr "9"), ("method", .vstr "has_required_config"),
         ("params", .vobj [])]

/-- The same `has_required_config` request addressed to GitLab. -/
def reqHasConfigGitlab : Value :=
  .vobj [("id", .vstr "9"), ("method", .vstr "has_required_config"),
         ("params", .vobj [("platform", .vstr "gitlab")])]

/-- A `create_issue` request whose params carry neither summary nor title. -/
def reqCreateNoSummary : Value :=
  .vobj [("id", .vnum 4), ("method", .vstr "create_issue"),
         ("params", .vobj [("projectKey", .vstr "T")])]

/-- A `create_issue` request whose params lack a summary but do carry a
truthy `issueKey` (irrelevant to create). -/
def reqCreateWithKey : Value :=
  .vobj [("id", .vnum 6), ("method", .vstr "create_issue"),
         ("params", .vobj [("projectKey", .vstr "T"), ("issueKey", .vstr "K-1")])]

/-- An `update_issue` request whose params carry no issue key. -/
def reqUpdateNoKey : Value :=
  .vobj [("id", .vnum 5), ("method", .vstr "update_issue"),
         ("params", .vobj [("updateData", .vobj [("summary", .vstr "s")])])]

/-- Update data with only falsy and unknown fields. -/
def updFalsy : Value :=
  .vobj [("description", .vstr ""), ("weight", .vnum 0), ("title", .vstr "")]

/-- Update data with one truthy field. -/
def updSummary : Value := .vobj [("summary", .vstr "new summary")]

/-- The `updateData` key each GitLab update-payload field is copied from:
`assignee_id` from `assigneeId`, `state_event` from `state`, the rest from
the key of the same name. -/
def gitlabUpdateSrc (nm : String) : String :=
  if nm = "assignee_id" then "assigneeId"
  else if nm = "state_event" then "state"
  else nm


theorem hasKey_of_truthy (d : Value) (k : String) (h : truthy (propOf d k) = true) :
    hasKey d k = true := by
  cases d <;> simp [propOf, truthy] at h ⊢
  case vobj fields =>
    cases hl : lookupField fields k with
    | none => rw [hl] at h; simp [truthy] at h
    | some v => simp [hasKey, hl]

theorem lookupField_setField_ne (fs : List (String × Value)) (k k2 : String) (x : Value)
    (h : k ≠ k2) : lookupField (setField fs k x) k2 = lookupField fs k2 := by
  induction fs with
  | nil => simp [setField, lookupField, h]
  | cons hd tl ih =>
    obtain ⟨k0, v0⟩ := hd
    by_cases hk : k0 = k
    · subst hk
      simp only [setField, if_pos rfl, lookupField]
      rw [if_neg h, if_neg h]
    · simp only [setField, if_neg hk, lookupField]
      rw [ih]

theorem propOf_setProp_ne (v : Value) (k k2 : String) (x : Value) (h : k ≠ k2) :
    propOf (setProp v k x) k2 = propOf v k2 := by
  cases v <;> simp [setProp, propOf]
  case vobj fields => rw [lookupField_setField_ne fields k k2 x h]

theorem getProp_eq_ok (v : Value) (k : String) (h : isNullish v = false) :
    getProp v k = .ok (propOf v k) := by
  simp [getProp, h]

theorem dispatch_ok_shape (env : Env) (oracle : Oracle) (request : Value)
    (r : Response) (cs : List NetCall)
    (h : dispatch env oracle request = (.ok r, cs)) :
    r.id = propOf request "id" ∧ r.error = none := by
  unfold dispatch at h
  dsimp only [] at h
  repeat' split at h
  all_goals simp only [Prod.mk.injEq, Except.ok.injEq, reduceCtorEq, false_and] at h
  all_goals (obtain ⟨h1, h2⟩ := h; subst h1; exact ⟨rfl, rfl⟩)

theorem handleRequest_of_ok (env : Env) (oracle : Oracle) (request : Value)
    (r : Response) (cs : List NetCall)
    (h : dispatch env oracle request = (.ok r, cs)) :
    handleRequest env oracle request = ⟨[r], cs, [], false⟩ := by
  unfold handleRequest
  rw [h]

theorem handleRequest_of_error (env : Env) (oracle : Oracle) (request : Value)
    (e : JsError) (cs : List NetCall)
    (hreq : isNullish request = false)
    (h : dispatch env oracle request = (.error e, cs)) :
    handleRequest env oracle request =
      ⟨[⟨propOf request "id", .vnull, some e.message⟩], cs,
       ["[ERROR] " ++ e.message], false⟩ := by
  unfold handleRequest
  rw [h, getProp_eq_ok request "id" hreq]
  simp [sendResponse]

/-- C1, counterexample: the decoded request value `null` (the input line
`null` is valid JSON) makes the dispatcher emit zero Response envelopes — the
catch block itself throws while reading `request.id` — refuting the claim
that exactly one envelope is emitted for every decoded request value. -/
theorem claim1_counterexample :
    (handleRequest env0 oracle0 Value.vnull).responses = [] ∧
    (handleRequest env0 oracle0 Value.vnull).crashed = true :=
  ⟨rfl, rfl⟩

/-- C1, amended: for every decoded request value other than null (and
undefined), whatever its contents, whatever the configuration and whatever
the platform answers, the dispatcher emits exactly one Response envelope,
and its id is the id field of the request read back verbatim (undefined when absent,
never fabricated).  For the decoded value null the handler instead crashes
while building the error envelope and emits none. -/
theorem claim1_amended (env : Env) (oracle : Oracle) (request : Value)
    (hreq : isNullish request = false) :
    (handleRequest env oracle request).responses.map Response.id =
      [propOf request "id"] := by
  cases hdisp : dispatch env oracle request with
  | mk res cs =>
    cases res with
    | ok r =>
      rw [handleRequest_of_ok env oracle request r cs hdisp]
      simp [(dispatch_ok_shape env oracle request r cs hdisp).1]
    | error e =>
      rw [handleRequest_of_error env oracle request e cs hreq hdisp]
      simp

/-- C1, witness: the amended theorem evaluated on a concrete request. -/
theorem claim1_witness :
    (handleRequest envFull oracle0 reqHasConfig).responses.map Response.id =
      [propOf reqHasConfig "id"] :=
  claim1_amended envFull oracle0 reqHasConfig rfl

/-- C2, counterexample: a `search_issues` request whose platform is spelled
`GITLAB` resolves a client (matching is case-insensitive there) but matches
neither case-sensitive branch of the dispatch, so the success envelope is
emitted with `result` undefined and `error` null — an envelope in which
neither field is non-null, refuting the claimed exact-one-of invariant. -/
theorem claim2_counterexample :
    (⟨Value.vstr "1", Value.undefined, none⟩ : Response) ∈
      (handleRequest env0 oracle0 reqMixedCaseSearch).responses ∧
    ¬ exactlyOneNonNull ⟨Value.vstr "1", Value.undefined, none⟩ := by
  constructor
  · exact List.Mem.head _
  · simp [exactlyOneNonNull]

/-- C2, amended: in every envelope the dispatcher emits, `result` and `error`
are never both non-null — a non-null error forces `result` to null — but both
can be null-ish: a success envelope may carry an undefined result (dropped by
the JSON serializer), as the mixed-case `search_issues` branch shows. -/
theorem claim2_amended (env : Env) (oracle : Oracle) (request : Value) (r : Response)
    (h : r ∈ (handleRequest env oracle request).responses) :
    r.error = none ∨ r.result = Value.vnull := by
  cases hdisp : dispatch env oracle request with
  | mk res cs =>
    cases res with
    | ok r2 =>
      rw [handleRequest_of_ok env oracle request r2 cs hdisp] at h
      simp at h
      rw [h]
      exact Or.inl (dispatch_ok_shape env oracle request r2 cs hdisp).2
    | error e =>
      unfold handleRequest at h
      rw [hdisp] at h
      cases hg : getProp request "id" with
      | ok idv =>
        rw [hg] at h
        simp [sendResponse] at h
        subst h
        exact Or.inr rfl
      | error e2 =>
        rw [hg] at h
        simp at h

/-- C2, witness: the amended theorem evaluated on a concrete emitted
envelope. -/
theorem claim2_witness :
    (⟨Value.vstr "9", Value.vobj [("hasRequiredConfig", Value.vbool true)],
       none⟩ : Response).error = none ∨
    (⟨Value.vstr "9", Value.vobj [("hasRequiredConfig", Value.vbool true)],
       none⟩ : Response).result = Value.vnull :=
  claim2_amended envFull oracle0 reqHasConfig _ (List.Mem.head _)

/-- C3, counterexample: a request whose method is unknown but whose platform
is also unsupported fails with the platform error, not with
`Unknown method: ` — platform resolution runs before the method switch — so
the claim does not hold of every request with an unknown method. -/
theorem claim3_counterexample :
    (handleRequest env0 oracle0 reqUnknownBadPlatform).responses =
      [⟨Value.vnum 1, Value.vnull, some "Unsupported platform: foo"⟩] ∧
    "Unsupported platform: foo" ≠ "Unknown method: nope" :=
  ⟨rfl, by decide⟩

/-- C3, amended: for every request whose platform resolves to a registered
client and whose method string is none of the four supported names, the
Response carries `error.message = "Unknown method: " ++ method` and a null
result. -/
theorem claim3_amended (env : Env) (oracle : Oracle) (request : Value) (m : String)
    (hreq : isNullish request = false)
    (hm : propOf request "method" = .vstr m)
    (h1 : m ≠ "create_issue") (h2 : m ≠ "update_issue")
    (h3 : m ≠ "search_issues") (h4 : m ≠ "has_required_config")
    (c : Client)
    (hplat : getClient (resolvePlatform (propOf request "params")) = .ok c) :
    (handleRequest env oracle request).responses =
      [⟨propOf request "id", Value.vnull, some ("Unknown method: " ++ m)⟩] := by
  have hdisp : dispatch env oracle request =
      (.error ⟨"Unknown method: " ++ m⟩, []) := by
    unfold dispatch
    dsimp only []
    rw [if_neg (by simp [hreq])]
    rw [hplat]
    repeat' split
    all_goals simp_all [jsTemplate]
  rw [handleRequest_of_error env oracle request _ _ hreq hdisp]

/-- C3, witness: the amended theorem evaluated on a concrete request with an
unknown method and the default platform. -/
theorem claim3_witness :
    (handleRequest env0 oracle0 reqUnknownMethod).responses =
      [⟨propOf reqUnknownMethod "id", Value.vnull,
        some ("Unknown method: " ++ "nope")⟩] :=
  claim3_amended env0 oracle0 reqUnknownMethod "nope" rfl rfl
    (by decide) (by decide) (by decide) (by decide) Client.jira rfl

theorem getProp_ok_eq (v : Value) (k : String) (t : Value)
    (h : getProp v k = .ok t) : t = propOf v k := by
  unfold getProp at h
  split at h
  · simp at h
  · simp only [Except.ok.injEq] at h
    exact h.symm

theorem jiraCreate_falsy_summary (env : Env) (oracle : Oracle) (issueData : Value)
    (h : truthy (propOf issueData "summary") = false) :
    ∃ e, Jira.createIssue env oracle issueData = (.error e, []) := by
  unfold Jira.createIssue
  split
  · exact ⟨_, rfl⟩
  · cases hg : getProp issueData "projectKey" with
    | error e => exact ⟨e, rfl⟩
    | ok pk =>
      dsimp only []
      have hs : truthy (propOf (if truthy pk then issueData
          else setProp issueData "projectKey" (envValue env.JIRA_PROJECT)) "summary") = false := by
        split
        · exact h
        · rw [propOf_setProp_ne issueData "projectKey" "summary" _ (by decide)]
          exact h
      rw [if_pos (by simp [hs])]
      exact ⟨_, rfl⟩

theorem gitlabCreate_falsy_title (env : Env) (oracle : Oracle) (issueData : Value)
    (h : truthy (propOf issueData "title") = false) :
    ∃ e, Gitlab.createIssue env oracle issueData = (.error e, []) := by
  unfold Gitlab.createIssue
  split
  · exact ⟨_, rfl⟩
  · cases hg : getProp issueData "title" with
    | error e => exact ⟨e, rfl⟩
    | ok t =>
      dsimp only []
      rw [if_pos (by simp [getProp_ok_eq issueData "title" t hg, h])]
      exact ⟨_, rfl⟩

theorem jiraUpdate_falsy_key (env : Env) (oracle : Oracle) (k u : Value)
    (h : truthy k = false) :
    ∃ e, Jira.updateIssue env oracle k u = (.error e, []) := by
  unfold Jira.updateIssue
  split
  · exact ⟨_, rfl⟩
  · rw [if_pos (by simp [h])]
    exact ⟨_, rfl⟩

theorem gitlabUpdate_falsy_id (env : Env) (oracle : Oracle) (k u : Value)
    (h : truthy k = false) :
    ∃ e, Gitlab.updateIssue env oracle k u = (.error e, []) := by
  unfold Gitlab.updateIssue
  split
  · exact ⟨_, rfl⟩
  · rw [if_pos (by simp [h])]
    exact ⟨_, rfl⟩

theorem clientUpdate_falsy_key (c : Client) (env : Env) (oracle : Oracle) (k u : Value)
    (h : truthy k = false) :
    ∃ e, clientUpdateIssue c env oracle k u = (.error e, []) := by
  cases c
  · exact jiraUpdate_falsy_key env oracle k u h
  · exact gitlabUpdate_falsy_id env oracle k u h

theorem updateKv_falsy (platform params : Value)
    (hkey : platform = .vstr "jira" → truthy (propOf params "issueKey") = false)
    (hiid : platform = .vstr "gitlab" → truthy (propOf params "issueId") = false) :
    (∃ e, updateKv platform params = .error e) ∨
    (∃ k u, updateKv platform params = .ok (k, u) ∧ truthy k = false) := by
  unfold updateKv
  split
  · cases hg : getProp params "issueKey" with
    | error e => exact Or.inl ⟨e, rfl⟩
    | ok k =>
      cases hg2 : getProp params "updateData" with
      | error e => exact Or.inl ⟨e, rfl⟩
      | ok u =>
        refine Or.inr ⟨k, u, rfl, ?_⟩
        rw [getProp_ok_eq params "issueKey" k hg]
        exact hkey rfl
  · cases hg : getProp params "issueId" with
    | error e => exact Or.inl ⟨e, rfl⟩
    | ok k =>
      cases hg2 : getProp params "updateData" with
      | error e => exact Or.inl ⟨e, rfl⟩
      | ok u =>
        refine Or.inr ⟨k, u, rfl, ?_⟩
        rw [getProp_ok_eq params "issueId" k hg]
        exact hiid rfl
  · exact Or.inr ⟨.undefined, .undefined, rfl, rfl⟩

/-- C4: every `create_issue` request whose params carry no truthy value in
the mandatory field of the resolved client (summary for the JIRA client,
title for the GitLab client) and every `update_issue` request whose
platform-specific key parameter (issueKey for jira, issueId for gitlab) is
falsy fails before any platform SDK call — whatever the configuration and
whatever the behaviour of the platform — with exactly one Response carrying a
non-null error and an empty list of SDK calls.  Each falsiness hypothesis
binds only for the method and platform resolution it concerns, so the
theorem covers, for example, a summary-less create whose params carry a
truthy issueKey. -/
theorem claim4 (env : Env) (oracle : Oracle) (request : Value)
    (hreq : isNullish request = false)
    (hmethod : propOf request "method" = .vstr "create_issue" ∨
               propOf request "method" = .vstr "update_issue")
    (hsum : propOf request "method" = .vstr "create_issue" →
      getClient (resolvePlatform (propOf request "params")) = .ok .jira →
      truthy (propOf (propOf request "params") "summary") = false)
    (htitle : propOf request "method" = .vstr "create_issue" →
      getClient (resolvePlatform (propOf request "params")) = .ok .gitlab →
      truthy (propOf (propOf request "params") "title") = false)
    (hkey : propOf request "method" = .vstr "update_issue" →
      resolvePlatform (propOf request "params") = .vstr "jira" →
      truthy (propOf (propOf request "params") "issueKey") = false)
    (hiid : propOf request "method" = .vstr "update_issue" →
      resolvePlatform (propOf request "params") = .vstr "gitlab" →
      truthy (propOf (propOf request "params") "issueId") = false) :
    (handleRequest env oracle request).calls = [] ∧
    (handleRequest env oracle request).responses.map responseHasError = [true] := by
  have core : ∃ e, dispatch env oracle request = (.error e, []) := by
    unfold dispatch
    dsimp only []
    rw [if_neg (by simp [hreq])]
    cases hgc : getClient (resolvePlatform (propOf request "params")) with
    | error e => exact ⟨e, rfl⟩
    | ok client =>
      rcases hmethod with hm | hm
      · rw [hm]
        dsimp only []
        cases client
        · obtain ⟨e, he⟩ := jiraCreate_falsy_summary env oracle _ (hsum hm hgc)
          rw [show clientCreateIssue Client.jira = Jira.createIssue from rfl, he]
          exact ⟨e, rfl⟩
        · obtain ⟨e, he⟩ := gitlabCreate_falsy_title env oracle _ (htitle hm hgc)
          rw [show clientCreateIssue Client.gitlab = Gitlab.createIssue from rfl, he]
          exact ⟨e, rfl⟩
      · rw [hm]
        dsimp only []
        rcases updateKv_falsy (resolvePlatform (propOf request "params"))
            (propOf request "params") (hkey hm) (hiid hm) with ⟨e, he⟩ | ⟨k, u, he, hk⟩
        · rw [he]
          exact ⟨e, rfl⟩
        · rw [he]
          dsimp only []
          obtain ⟨e, he2⟩ := clientUpdate_falsy_key client env oracle k u hk
          rw [he2]
          exact ⟨e, rfl⟩
  obtain ⟨e, he⟩ := core
  rw [handleRequest_of_error env oracle request e [] hreq he]
  exact ⟨rfl, rfl⟩

/-- C4, witness: the theorem evaluated on a concrete summary-less
`create_issue` request, a concrete key-less `update_issue` request, and a
summary-less `create_issue` request whose params carry a truthy `issueKey`,
all with full configuration. -/
theorem claim4_witness :
    ((handleRequest envFull oracle0 reqCreateNoSummary).calls = [] ∧
     (handleRequest envFull oracle0 reqCreateNoSummary).responses.map
       responseHasError = [true]) ∧
    ((handleRequest envFull oracle0 reqUpdateNoKey).calls = [] ∧
     (handleRequest envFull oracle0 reqUpdateNoKey).responses.map
       responseHasError = [true]) ∧
    ((handleRequest envFull oracle0 reqCreateWithKey).calls = [] ∧
     (handleRequest envFull oracle0 reqCreateWithKey).responses.map
       responseHasError = [true]) :=
  ⟨claim4 envFull oracle0 reqCreateNoSummary rfl (Or.inl rfl)
     (fun _ _ => rfl) (fun _ _ => rfl) (fun _ _ => rfl) (fun _ _ => rfl),
   claim4 envFull oracle0 reqUpdateNoKey rfl (Or.inr rfl)
     (fun _ _ => rfl) (fun _ _ => rfl) (fun _ _ => rfl) (fun _ _ => rfl),
   claim4 envFull oracle0 reqCreateWithKey rfl (Or.inl rfl)
     (fun _ _ => rfl) (fun _ _ => rfl)
     (fun h _ => absurd (congrArg jsTemplate h) (by decide))
     (fun h _ => absurd (congrArg jsTemplate h) (by decide))⟩

/-- C5: every field of either update payload the adapters build is copied from a field
actually present in `updateData` (truthy, hence present), so absent fields
never reach the payload; and under a resolvable call the recorded SDK payload
is exactly that pure function of `updateData`, so two update calls with the
same partial `updateData` construct the same payload. -/
theorem claim5 :
    (∀ d nm v, (nm, v) ∈ Jira.updateFields d →
        nm ∈ (["summary", "description", "assignee"] : List String) ∧
        hasKey d nm = true) ∧
    (∀ d nm v, (nm, v) ∈ Gitlab.updateFields d →
        nm ∈ (["title", "description", "assignee_id", "labels", "state_event"] : List String) ∧
        hasKey d (gitlabUpdateSrc nm) = true) ∧
    (∀ (env : Env) (oracle : Oracle) (k d : Value),
        Jira.hasRequiredEnv env = true → truthy k = true → isNullish d = false →
        (Jira.updateIssue env oracle k d).2 =
          [.jiraUpdateIssue k (.vobj [("fields", .vobj (Jira.updateFields d))])]) ∧
    (∀ (env : Env) (oracle : Oracle) (k d : Value),
        Gitlab.hasRequiredEnv env = true → truthy k = true → isNullish d = false →
        (Gitlab.updateIssue env oracle k d).2 =
          [.glEdit (envValue env.GITLAB_PROJECT_ID) k (.vobj (Gitlab.updateFields d))]) := by
  refine ⟨?_, ?_, ?_, ?_⟩
  · intro d nm v h
    unfold Jira.updateFields at h
    simp only [List.mem_append] at h
    rcases h with (h | h) | h <;> split at h <;>
      simp_all [hasKey_of_truthy]
  · intro d nm v h
    unfold Gitlab.updateFields at h
    simp only [List.mem_append] at h
    rcases h with ((((h | h) | h) | h) | h) <;> split at h <;>
      simp_all [gitlabUpdateSrc, hasKey_of_truthy]
  · intro env oracle k d hc hk hd
    unfold Jira.updateIssue
    rw [if_neg (by simp [hc]), if_neg (by simp [hk]), getProp_eq_ok d "summary" hd]
  · intro env oracle k d hc hk hd
    unfold Gitlab.updateIssue
    rw [if_neg (by simp [hc]), if_neg (by simp [hk]), getProp_eq_ok d "title" hd]

/-- C5, witness: the theorem evaluated on a concrete partial update. -/
theorem claim5_witness :
    ((("summary" : String) ∈ (["summary", "description", "assignee"] : List String)) ∧
      hasKey updSummary "summary" = true) ∧
    (Jira.updateIssue envFull oracle0 (.vstr "T-1") updSummary).2 =
      [.jiraUpdateIssue (.vstr "T-1")
        (.vobj [("fields", .vobj (Jira.updateFields updSummary))])] :=
  ⟨claim5.1 updSummary "summary" (.vstr "new summary") (List.Mem.head _),
   claim5.2.2.1 envFull oracle0 (.vstr "T-1") updSummary rfl rfl rfl⟩

/-- C10: in both adapters, inclusion of an update field is decided by the JS
truthiness of its value, not by key presence — a present-but-falsy field
(empty string, 0, false, null) is omitted from the payload, so update_issue
can never clear a remote field to an empty/zero value — a truthy description
is forwarded, and GitLab update payloads never carry a `weight` field at all. -/
theorem claim10 (d : Value) :
    (truthy (propOf d "summary") = false → ∀ v, ("summary", v) ∉ Jira.updateFields d) ∧
    (truthy (propOf d "description") = false →
      (∀ v, ("description", v) ∉ Jira.updateFields d) ∧
      (∀ v, ("description", v) ∉ Gitlab.updateFields d)) ∧
    (truthy (propOf d "assignee") = false → ∀ v, ("assignee", v) ∉ Jira.updateFields d) ∧
    (truthy (propOf d "title") = false → ∀ v, ("title", v) ∉ Gitlab.updateFields d) ∧
    (truthy (propOf d "assigneeId") = false → ∀ v, ("assignee_id", v) ∉ Gitlab.updateFields d) ∧
    (truthy (propOf d "labels") = false → ∀ v, ("labels", v) ∉ Gitlab.updateFields d) ∧
    (truthy (propOf d "state") = false → ∀ v, ("state_event", v) ∉ Gitlab.updateFields d) ∧
    (∀ v, ("weight", v) ∉ Gitlab.updateFields d) ∧
    (truthy (propOf d "description") = true →
      ("description", propOf d "description") ∈ Jira.updateFields d) := by
  refine ⟨?_, ?_, ?_, ?_, ?_, ?_, ?_, ?_, ?_⟩
  · intro h v hmem
    unfold Jira.updateFields at hmem
    split_ifs at hmem <;> simp_all
  · intro h
    constructor
    · intro v hmem
      unfold Jira.updateFields at hmem
      split_ifs at hmem <;> simp_all
    · intro v hmem
      unfold Gitlab.updateFields at hmem
      split_ifs at hmem <;> simp_all
  · intro h v hmem
    unfold Jira.updateFields at hmem
    split_ifs at hmem <;> simp_all
  · intro h v hmem
    unfold Gitlab.updateFields at hmem
    split_ifs at hmem <;> simp_all
  · intro h v hmem
    unfold Gitlab.updateFields at hmem
    split_ifs at hmem <;> simp_all
  · intro h v hmem
    unfold Gitlab.updateFields at hmem
    split_ifs at hmem <;> simp_all
  · intro h v hmem
    unfold Gitlab.updateFields at hmem
    split_ifs at hmem <;> simp_all
  · intro v hmem
    unfold Gitlab.updateFields at hmem
    split_ifs at hmem <;> simp_all
  · intro h
    unfold Jira.updateFields
    simp [h]

/-- C10, witness: the theorem evaluated on update data whose description and
title are the empty string and whose weight is 0 — none of which reach a
payload. -/
theorem claim10_witness :
    (("description", Value.vstr "") ∉ Jira.updateFields updFalsy) ∧
    (("description", Value.vstr "") ∉ Gitlab.updateFields updFalsy) ∧
    (("title", Value.vstr "") ∉ Gitlab.updateFields updFalsy) ∧
    (("weight", Value.vnum 0) ∉ Gitlab.updateFields updFalsy) :=
  ⟨((claim10 updFalsy).2.1 rfl).1 (Value.vstr ""),
   ((claim10 updFalsy).2.1 rfl).2 (Value.vstr ""),
   (claim10 updFalsy).2.2.2.1 rfl (Value.vstr ""),
   (claim10 updFalsy).2.2.2.2.2.2.2.1 (Value.vnum 0)⟩

/-- C6, counterexample: the empty-string platform identifier is outside the
supported set yet does not fail with `Unsupported platform: ` — being falsy it
silently falls back to the default, and the request proceeds on JIRA (here
failing on the unknown method instead, with a different message). -/
theorem claim6_counterexample :
    (handleRequest env0 oracle0 reqEmptyPlatform).responses =
      [⟨Value.vnum 1, Value.vnull, some "Unknown method: x"⟩] ∧
    "Unknown method: x" ≠ "Unsupported platform: " ++ lowerString "" :=
  ⟨rfl, by decide⟩

/-- C6, amended: a platform string is matched case-insensitively against
jira/gitlab; a string whose lowercasing is outside that set fails with
`Unsupported platform: ` plus the lowercased identifier; but a falsy
`params.platform` — absent, or present as the empty string — does not fail:
it falls back to the hard-coded default `jira` (the code has no configurable
default platform). -/
theorem claim6_amended :
    (∀ s : String, lowerString s = "jira" → getClient (.vstr s) = .ok .jira) ∧
    (∀ s : String, lowerString s = "gitlab" → getClient (.vstr s) = .ok .gitlab) ∧
    (∀ s : String, lowerString s ≠ "jira" → lowerString s ≠ "gitlab" →
        getClient (.vstr s) = .error ⟨"Unsupported platform: " ++ lowerString s⟩) ∧
    (∀ params : Value, truthy (propOf params "platform") = false →
        resolvePlatform params = .vstr "jira") := by
  have hg : ∀ s : String, getClient (.vstr s) =
      (match lowerString s with
       | "jira" => Except.ok Client.jira
       | "gitlab" => Except.ok Client.gitlab
       | l => Except.error ⟨"Unsupported platform: " ++ l⟩) := fun _ => rfl
  refine ⟨?_, ?_, ?_, ?_⟩
  · intro s h
    rw [hg, h]
    rfl
  · intro s h
    rw [hg, h]
    rfl
  · intro s h1 h2
    rw [hg]
    split <;> simp_all
  · intro params h
    unfold resolvePlatform jsAnd jsOr
    cases ht : truthy params <;> simp [ht, h]

/-- C6, witness: the amended theorem evaluated on concrete identifiers. -/
theorem claim6_witness :
    getClient (.vstr "JIRA") = .ok .jira ∧
    getClient (.vstr "GitLab") = .ok .gitlab ∧
    getClient (.vstr "github") = .error ⟨"Unsupported platform: " ++ lowerString "github"⟩ ∧
    resolvePlatform (.vobj []) = .vstr "jira" :=
  ⟨claim6_amended.1 "JIRA" rfl, claim6_amended.2.1 "GitLab" rfl,
   claim6_amended.2.2.1 "github" (by decide) (by decide),
   claim6_amended.2.2.2 (.vobj []) rfl⟩

/-- C7: an input line whose JSON decoding fails produces zero Response lines
and zero requests handed to the dispatcher, only one stderr line starting
with the `[ERROR]` indicator; a line whose decoding succeeds is handed to the
dispatcher as exactly one request, whose responses are the output of the line. -/
theorem claim7 :
    (∀ (env : Env) (oracle : Oracle) (e : JsError),
        (onLine env oracle (.error e)).responses = [] ∧
        (onLine env oracle (.error e)).handed = [] ∧
        (onLine env oracle (.error e)).stderrLines =
          ["[ERROR]" ++ " Failed to parse request: " ++ e.message]) ∧
    (∀ (env : Env) (oracle : Oracle) (v : Value),
        (onLine env oracle (.ok v)).handed = [v] ∧
        (onLine env oracle (.ok v)).responses = (handleRequest env oracle v).responses) :=
  ⟨fun _ _ _ => ⟨rfl, rfl, rfl⟩, fun _ _ _ => ⟨rfl, rfl⟩⟩

/-- C8: hasRequiredEnv of each adapter is true exactly when all of the
mandatory configuration values of its platform are present and non-empty (JIRA:
URL, token, email; GitLab: URL, token, project id); and a
`has_required_config` request makes zero SDK calls and answers with exactly
the envelope wrapping that boolean as `hasRequiredConfig`. -/
theorem claim8 :
    (∀ env : Env, Jira.hasRequiredEnv env = true ↔
        (envSet env.JIRA_URL ∧ envSet env.JIRA_TOKEN ∧ envSet env.JIRA_EMAIL)) ∧
    (∀ env : Env, Gitlab.hasRequiredEnv env = true ↔
        (envSet env.GITLAB_URL ∧ envSet env.GITLAB_TOKEN ∧ envSet env.GITLAB_PROJECT_ID)) ∧
    (∀ (env : Env) (oracle : Oracle) (request : Value),
        isNullish request = false →
        propOf request "method" = .vstr "has_required_config" →
        getClient (resolvePlatform (propOf request "params")) = .ok .jira →
        handleRequest env oracle request =
          ⟨[⟨propOf request "id",
             .vobj [("hasRequiredConfig", .vbool (Jira.hasRequiredEnv env))], none⟩],
           [], [], false⟩) ∧
    (∀ (env : Env) (oracle : Oracle) (request : Value),
        isNullish request = false →
        propOf request "method" = .vstr "has_required_config" →
        getClient (resolvePlatform (propOf request "params")) = .ok .gitlab →
        handleRequest env oracle request =
          ⟨[⟨propOf request "id",
             .vobj [("hasRequiredConfig", .vbool (Gitlab.hasRequiredEnv env))], none⟩],
           [], [], false⟩) := by
  refine ⟨?_, ?_, ?_, ?_⟩
  · intro env
    cases hu : env.JIRA_URL <;> cases ht : env.JIRA_TOKEN <;> cases he : env.JIRA_EMAIL <;>
      simp [Jira.hasRequiredEnv, envValue, truthy, envSet, hu, ht, he, and_assoc]
  · intro env
    cases hu : env.GITLAB_URL <;> cases ht : env.GITLAB_TOKEN <;>
      cases he : env.GITLAB_PROJECT_ID <;>
      simp [Gitlab.hasRequiredEnv, envValue, truthy, envSet, hu, ht, he, and_assoc]
  · intro env oracle request hreq hm hgc
    have hdisp : dispatch env oracle request =
        (.ok ⟨propOf request "id",
          .vobj [("hasRequiredConfig", .vbool (Jira.hasRequiredEnv env))], none⟩, []) := by
      unfold dispatch
      dsimp only []
      rw [if_neg (by simp [hreq]), hgc, hm]
      rfl
    exact handleRequest_of_ok env oracle request _ _ hdisp
  · intro env oracle request hreq hm hgc
    have hdisp : dispatch env oracle request =
        (.ok ⟨propOf request "id",
          .vobj [("hasRequiredConfig", .vbool (Gitlab.hasRequiredEnv env))], none⟩, []) := by
      unfold dispatch
      dsimp only []
      rw [if_neg (by simp [hreq]), hgc, hm]
      rfl
    exact handleRequest_of_ok env oracle request _ _ hdisp

/-- C8, witness: the theorem evaluated on a fully and an emptily configured
environment and on concrete requests for both platforms. -/
theorem claim8_witness :
    (Jira.hasRequiredEnv envFull = true ↔
      (envSet envFull.JIRA_URL ∧ envSet envFull.JIRA_TOKEN ∧ envSet envFull.JIRA_EMAIL)) ∧
    (Gitlab.hasRequiredEnv env0 = true ↔
      (envSet env0.GITLAB_URL ∧ envSet env0.GITLAB_TOKEN ∧ envSet env0.GITLAB_PROJECT_ID)) ∧
    handleRequest envFull oracle0 reqHasConfig =
      ⟨[⟨propOf reqHasConfig "id",
         .vobj [("hasRequiredConfig", .vbool (Jira.hasRequiredEnv envFull))], none⟩],
       [], [], false⟩ ∧
    handleRequest env0 oracle0 reqHasConfigGitlab =
      ⟨[⟨propOf reqHasConfigGitlab "id",
         .vobj [("hasRequiredConfig", .vbool (Gitlab.hasRequiredEnv env0))], none⟩],
       [], [], false⟩ :=
  ⟨claim8.1 envFull, claim8.2.1 env0,
   claim8.2.2.1 envFull oracle0 reqHasConfig rfl rfl rfl,
   claim8.2.2.2 env0 oracle0 reqHasConfigGitlab rfl rfl rfl⟩

theorem propOf_of_not_hasKey (v : Value) (k : String) (h : hasKey v k = false) :
    propOf v k = .undefined := by
  cases v <;> simp [propOf, hasKey] at h ⊢
  case vobj fields =>
    cases hl : lookupField fields k
    · simp
    · rw [hl] at h
      simp at h

/-- C9, counterexample: an explicitly given option with a falsy value does
not override its default — `maxResults: 0` still yields the JIRA default 50
in the constructed search options — refuting the claim that an option
explicitly given overrides its default. -/
theorem claim9_counterexample :
    propOf (Jira.searchOptions (.vstr "q") (.vobj [("maxResults", .vnum 0)]))
      "maxResults" = .vnum 50 ∧
    Value.vnum 0 ≠ Value.vnum 50 :=
  ⟨rfl, by simp⟩

/-- C9, amended: with unspecified options the GitLab adapter defaults state
to `opened`, page size (`per_page`) to 20 and page to 1, and the JIRA adapter
defaults maxResults to 50 and startAt to 0; an explicitly given truthy option
overrides its default, while a falsy explicit value (0, empty string) falls
back to the default; and under a resolvable call the adapters pass exactly
these constructed options to the platform SDK. -/
theorem claim9_amended :
    (∀ jql options : Value, hasKey options "maxResults" = false →
        propOf (Jira.searchOptions jql options) "maxResults" = .vnum 50) ∧
    (∀ jql options : Value, hasKey options "startAt" = false →
        propOf (Jira.searchOptions jql options) "startAt" = .vnum 0) ∧
    (∀ params : Value, hasKey params "state" = false →
        lookupField (Gitlab.searchOptions params) "state" = some (.vstr "opened")) ∧
    (∀ params : Value, hasKey params "maxResults" = false →
        lookupField (Gitlab.searchOptions params) "per_page" = some (.vnum 20)) ∧
    (∀ params : Value, hasKey params "page" = false →
        lookupField (Gitlab.searchOptions params) "page" = some (.vnum 1)) ∧
    (∀ jql options : Value, truthy (propOf options "maxResults") = true →
        propOf (Jira.searchOptions jql options) "maxResults" = propOf options "maxResults") ∧
    (∀ jql options : Value, truthy (propOf options "startAt") = true →
        propOf (Jira.searchOptions jql options) "startAt" = propOf options "startAt") ∧
    (∀ params : Value, truthy (propOf params "state") = true →
        lookupField (Gitlab.searchOptions params) "state" = some (propOf params "state")) ∧
    (∀ params : Value, truthy (propOf params "maxResults") = true →
        lookupField (Gitlab.searchOptions params) "per_page" = some (propOf params "maxResults")) ∧
    (∀ params : Value, truthy (propOf params "page") = true →
        lookupField (Gitlab.searchOptions params) "page" = some (propOf params "page")) ∧
    (∀ (env : Env) (oracle : Oracle) (jql options : Value),
        Jira.hasRequiredEnv env = true → isNullish options = false →
        isUndefined options = false →
        (Jira.searchIssues env oracle jql options).2 =
          [.jiraSearchJira jql (Jira.searchOptions jql options)]) ∧
    (∀ (env : Env) (oracle : Oracle) (params : Value),
        Gitlab.hasRequiredEnv env = true → isNullish params = false →
        isUndefined params = false →
        (Gitlab.searchIssues env oracle params).2 =
          [.glIssuesAll (.vobj (("projectId", envValue env.GITLAB_PROJECT_ID) ::
            Gitlab.searchOptions params))]) := by
  refine ⟨?_, ?_, ?_, ?_, ?_, ?_, ?_, ?_, ?_, ?_, ?_, ?_⟩
  · intro jql options h
    unfold Jira.searchOptions
    rw [propOf_of_not_hasKey options "maxResults" h]
    simp [jsOr, truthy, propOf, lookupField]
  · intro jql options h
    unfold Jira.searchOptions
    rw [propOf_of_not_hasKey options "startAt" h]
    simp [jsOr, truthy, propOf, lookupField]
  · intro params h
    unfold Gitlab.searchOptions
    rw [propOf_of_not_hasKey params "state" h]
    simp [jsOr, truthy, lookupField]
  · intro params h
    unfold Gitlab.searchOptions
    rw [propOf_of_not_hasKey params "maxResults" h]
    simp [jsOr, truthy, lookupField]
  · intro params h
    unfold Gitlab.searchOptions
    rw [propOf_of_not_hasKey params "page" h]
    simp [jsOr, truthy, lookupField]
  · intro jql options h
    unfold Jira.searchOptions
    generalize hw : propOf options "maxResults" = w at h ⊢
    simp [jsOr, h, propOf, lookupField]
  · intro jql options h
    unfold Jira.searchOptions
    generalize hw : propOf options "startAt" = w at h ⊢
    simp [jsOr, h, propOf, lookupField]
  · intro params h
    unfold Gitlab.searchOptions
    generalize hw : propOf params "state" = w at h ⊢
    simp [jsOr, h, lookupField]
  · intro params h
    unfold Gitlab.searchOptions
    generalize hw : propOf params "maxResults" = w at h ⊢
    simp [jsOr, h, lookupField]
  · intro params h
    unfold Gitlab.searchOptions
    generalize hw : propOf params "page" = w at h ⊢
    simp [jsOr, h, lookupField]
  · intro env oracle jql options hc hn hund
    unfold Jira.searchIssues
    dsimp only []
    rw [hund]
    simp only [Bool.false_eq_true, if_false]
    rw [if_neg (by simp [hc]), getProp_eq_ok options "maxResults" hn]
  · intro env oracle params hc hn hund
    unfold Gitlab.searchIssues
    dsimp only []
    rw [hund]
    simp only [Bool.false_eq_true, if_false]
    rw [if_neg (by simp [hc]), getProp_eq_ok params "state" hn]

/-- C9, witness: the amended theorem evaluated on concrete options — empty
options take every default, an explicit truthy page size overrides, and the
full adapter run records exactly the constructed options. -/
theorem claim9_witness :
    propOf (Jira.searchOptions (.vstr "q") (.vobj [])) "maxResults" = .vnum 50 ∧
    propOf (Jira.searchOptions (.vstr "q") (.vobj [])) "startAt" = .vnum 0 ∧
    lookupField (Gitlab.searchOptions (.vobj [])) "state" = some (.vstr "opened") ∧
    lookupField (Gitlab.searchOptions (.vobj [])) "per_page" = some (.vnum 20) ∧
    lookupField (Gitlab.searchOptions (.vobj [])) "page" = some (.vnum 1) ∧
    lookupField (Gitlab.searchOptions (.vobj [("maxResults", .vnum 7)]))
      "per_page" = some (propOf (.vobj [("maxResults", .vnum 7)]) "maxResults") ∧
    (Jira.searchIssues envFull oracle0 (.vstr "q") (.vobj [])).2 =
      [.jiraSearchJira (.vstr "q") (Jira.searchOptions (.vstr "q") (.vobj []))] ∧
    (Gitlab.searchIssues envFull oracle0 (.vobj [])).2 =
      [.glIssuesAll (.vobj (("projectId", envValue envFull.GITLAB_PROJECT_ID) ::
        Gitlab.searchOptions (.vobj [])))] :=
  ⟨claim9_amended.1 (.vstr "q") (.vobj []) rfl,
   claim9_amended.2.1 (.vstr "q") (.vobj []) rfl,
   claim9_amended.2.2.1 (.vobj []) rfl,
   claim9_amended.2.2.2.1 (.vobj []) rfl,
   claim9_amended.2.2.2.2.1 (.vobj []) rfl,
   claim9_amended.2.2.2.2.2.2.2.2.1 (.vobj [("maxResults", .vnum 7)]) rfl,
   claim9_amended.2.2.2.2.2.2.2.2.2.2.1 envFull oracle0 (.vstr "q") (.vobj []) rfl rfl rfl,
   claim9_amended.2.2.2.2.2.2.2.2.2.2.2 envFull oracle0 (.vobj []) rfl rfl rfl⟩
